import Mathlib

/-!
Verification development for the NeMo Agent Toolkit UI proxy gateway.

The definitions below are a shallow embedding of the JavaScript
sources:
  * src/proxy/request-transformers.js  (payload builders)
  * src/proxy/response-processors.js   (per-route response processors)
  * src/proxy/server.js                (request/upgrade dispatch and the
                                        Context-Aware RAG init gate)
  * src/constants/index.js             (route constants)

JavaScript runtime values reachable in this code are modelled by `JsVal`
(JSON values plus `undefined`).  `JSON.parse` is modelled by an executable
JSON parser (`jsonParse`), `JSON.stringify` by `jsonStringifyJs`, and the
HTTP response object by an event trace (`Res`).  Response header
dictionaries (CORS headers, content types, the observability-trace-id
header copy) are elided from the trace: the claims under verification
concern status codes, body bytes and termination only.
-/

/-- Model of a JavaScript runtime value as produced/consumed by the proxy
code: the JSON values plus `undefined` (the result of a missed property
access or an absent optional-chaining step).  Numbers are kept as their
source lexeme, which is faithful for every value the claims observe. -/
inductive JsVal where
  | undef
  | null
  | bool (b : Bool)
  | num (lexeme : String)
  | str (s : String)
  | arr (elems : List JsVal)
  | obj (fields : List (String × JsVal))

/-- Characters treated as whitespace by the JavaScript `String.prototype.trim` method
(the subset that can actually occur in the inputs of this gateway). -/
def isJsWsCh (c : Char) : Bool :=
  c = ' ' || c = '\t' || c = '\n' || c = '\r' || c = Char.ofNat 11 || c = Char.ofNat 12

/-- Model of JavaScript `s.trim()`. -/
def jsTrim (s : String) : String :=
  String.mk (((s.data.dropWhile isJsWsCh).reverse.dropWhile isJsWsCh).reverse)

/-- Helper for `jsSplitCh`: split a character list at every occurrence of
the separator character (JavaScript `String.prototype.split` semantics:
the result is never empty, and a trailing separator yields a final `""`). -/
def splitChAux (sep : Char) : List Char → List Char → List String
  | [], acc => [String.mk acc.reverse]
  | c :: cs, acc =>
    if c = sep then String.mk acc.reverse :: splitChAux sep cs []
    else splitChAux sep cs (c :: acc)

/-- Model of JavaScript `s.split(sep)` for a single-character separator. -/
def jsSplitCh (s : String) (sep : Char) : List String :=
  splitChAux sep s.data []

/-- Model of JavaScript `s.startsWith(pre)`. -/
def strStarts (s pre : String) : Bool :=
  pre.data.isPrefixOf s.data

/-- Model of JavaScript `s.slice(n)` for a non-negative start index. -/
def strDropN (s : String) (n : Nat) : String :=
  String.mk (s.data.drop n)

/-- The `{` character, and `}` below (used when assembling JSON text). -/
def braceOpen : Char := Char.ofNat 123

/-- The `}` character. -/
def braceClose : Char := Char.ofNat 125

/-- The one-character string `{`. -/
def obrace : String := String.singleton braceOpen

/-- The one-character string `}`. -/
def cbrace : String := String.singleton braceClose

/-- Is the JSON-number lexeme a representation of zero (so falsy in JS)? -/
def jsNumLexZero (lex : String) : Bool :=
  let cs := match lex.data with
    | '+' :: r => r
    | '-' :: r => r
    | ds => ds
  let mant := cs.takeWhile (fun c => c ≠ 'e' && c ≠ 'E')
  !(mant.isEmpty) && mant.all (fun c => c = '0' || c = '.')

/-- JavaScript truthiness of a runtime value. -/
def jsTruthy : JsVal → Bool
  | JsVal.undef => false
  | JsVal.null => false
  | JsVal.bool b => b
  | JsVal.num lex => !(jsNumLexZero lex)
  | JsVal.str s => !(s = "")
  | JsVal.arr _ => true
  | JsVal.obj _ => true

/-- Value of the JavaScript expression `a || b`. -/
def jsOr (a b : JsVal) : JsVal :=
  if jsTruthy a then a else b

/-- Is the value a string (JavaScript `typeof v === "string"`)? -/
def jsIsStr : JsVal → Bool
  | JsVal.str _ => true
  | _ => false

/-- First-match lookup in the field list of an object. -/
def objLookup : List (String × JsVal) → String → Option JsVal
  | [], _ => none
  | (k0, v0) :: rest, k => if k0 = k then some v0 else objLookup rest k

/-- JavaScript property assignment `o[k] = v`: replace in place when the
key already exists, otherwise append (preserving insertion order). -/
def objAssign : List (String × JsVal) → String → JsVal → List (String × JsVal)
  | [], k, v => [(k, v)]
  | (k0, v0) :: rest, k, v =>
    if k0 = k then (k0, v) :: rest else (k0, v0) :: objAssign rest k v

/-- JavaScript property access `o?.[k]` for a string key: field lookup on
objects, index lookup on arrays and strings, `undefined` otherwise (this
also models the optional-chaining behaviour on `null`/`undefined`). -/
def jsGet : JsVal → String → JsVal
  | JsVal.obj fs, k => (objLookup fs k).getD JsVal.undef
  | JsVal.arr es, k =>
    match String.toNat? k with
    | some i => (es.get? i).getD JsVal.undef
    | none => JsVal.undef
  | JsVal.str s, k =>
    match String.toNat? k with
    | some i =>
      match s.data.get? i with
      | some c => JsVal.str (String.singleton c)
      | none => JsVal.undef
    | none => JsVal.undef
  | _, _ => JsVal.undef

/-- JavaScript index access `v?.[i]` for a numeric index. -/
def jsIndexN : JsVal → Nat → JsVal
  | JsVal.arr es, i => (es.get? i).getD JsVal.undef
  | JsVal.str s, i =>
    match s.data.get? i with
    | some c => JsVal.str (String.singleton c)
    | none => JsVal.undef
  | _, _ => JsVal.undef

/-- Keys enumerated by JavaScript `Object.keys` on a parsed value: field
names of an object, index strings of an array or string, nothing for
primitives (for `null` the surrounding try/catch in the source makes the thrown
TypeError equivalent to an empty key list).  The JS refinement that
integer-like keys are enumerated first is elided: the claims only observe
the merged object through key lookup, which is order-insensitive here. -/
def jsKeys : JsVal → List String
  | JsVal.obj fs => fs.map (fun kv => kv.1)
  | JsVal.arr es => (List.range es.length).map (fun i => Nat.repr i)
  | JsVal.str s => (List.range s.data.length).map (fun i => Nat.repr i)
  | _ => []

/-- Is the character an ASCII decimal digit? -/
def isDigitCh (c : Char) : Bool := '0' ≤ c && c ≤ '9'

/-- Is the character an ASCII hexadecimal digit? -/
def isHexDigitCh (c : Char) : Bool :=
  isDigitCh c || ('a' ≤ c && c ≤ 'f') || ('A' ≤ c && c ≤ 'F')

/-- Numeric value of a hexadecimal digit. -/
def hexVal (c : Char) : Nat :=
  if isDigitCh c then c.toNat - '0'.toNat
  else if 'a' ≤ c && c ≤ 'f' then c.toNat - 'a'.toNat + 10
  else if 'A' ≤ c && c ≤ 'F' then c.toNat - 'A'.toNat + 10
  else 0

/-- Whitespace characters permitted between JSON tokens. -/
def skipWs (cs : List Char) : List Char :=
  cs.dropWhile (fun c => c = ' ' || c = '\t' || c = '\n' || c = '\r')

/-- Match a literal token (`true`, `false`, `null`) at the head of the
input, returning the remaining input. -/
def pLit (lit : List Char) (cs : List Char) : Option (List Char) :=
  if lit.isPrefixOf cs then some (cs.drop lit.length) else none

/-- Parse the body of a JSON string literal (the opening quote has already
been consumed), handling the escape sequences of the JSON grammar. -/
def pStrBody : Nat → List Char → List Char → Option (String × List Char)
  | 0, _, _ => none
  | fuel + 1, cs, acc =>
    match cs with
    | [] => none
    | c :: rest =>
      if c = '\"' then some (String.mk acc.reverse, rest)
      else if c = '\\' then
        match rest with
        | [] => none
        | e :: rest2 =>
          if e = '\"' then pStrBody fuel rest2 ('\"' :: acc)
          else if e = '\\' then pStrBody fuel rest2 ('\\' :: acc)
          else if e = '/' then pStrBody fuel rest2 ('/' :: acc)
          else if e = 'b' then pStrBody fuel rest2 (Char.ofNat 8 :: acc)
          else if e = 'f' then pStrBody fuel rest2 (Char.ofNat 12 :: acc)
          else if e = 'n' then pStrBody fuel rest2 ('\n' :: acc)
          else if e = 'r' then pStrBody fuel rest2 ('\r' :: acc)
          else if e = 't' then pStrBody fuel rest2 ('\t' :: acc)
          else if e = 'u' then
            match rest2 with
            | h1 :: h2 :: h3 :: h4 :: rest3 =>
              if isHexDigitCh h1 && isHexDigitCh h2 && isHexDigitCh h3 && isHexDigitCh h4 then
                let code := ((hexVal h1 * 16 + hexVal h2) * 16 + hexVal h3) * 16 + hexVal h4
                pStrBody fuel rest3 (Char.ofNat code :: acc)
              else none
            | _ => none
          else none
      else if c.toNat < 32 then none
      else pStrBody fuel rest (c :: acc)

/-- Parse a JSON number at the head of the input, returning its lexeme. -/
def pNum (cs : List Char) : Option (String × List Char) :=
  let sr : List Char × List Char := match cs with
    | '-' :: rest => (['-'], rest)
    | _ => ([], cs)
  let sgn := sr.1
  let cs1 := sr.2
  let ip := cs1.takeWhile isDigitCh
  let cs2 := cs1.dropWhile isDigitCh
  if ip.isEmpty then none
  else if 1 < ip.length && ip.headD '0' = '0' then none
  else
    let fracRes : Option (List Char × List Char) := match cs2 with
      | '.' :: rest =>
        let ds := rest.takeWhile isDigitCh
        if ds.isEmpty then none else some ('.' :: ds, rest.dropWhile isDigitCh)
      | _ => some ([], cs2)
    match fracRes with
    | none => none
    | some (fp, cs3) =>
      let expRes : Option (List Char × List Char) := match cs3 with
        | e :: rest =>
          if e = 'e' || e = 'E' then
            let sr2 : List Char × List Char := match rest with
              | '+' :: r => (['+'], r)
              | '-' :: r => (['-'], r)
              | _ => ([], rest)
            let ds := sr2.2.takeWhile isDigitCh
            if ds.isEmpty then none
            else some (e :: (sr2.1 ++ ds), sr2.2.dropWhile isDigitCh)
          else some ([], cs3)
        | [] => some ([], cs3)
      match expRes with
      | none => none
      | some (ep, cs4) => some (String.mk (sgn ++ ip ++ fp ++ ep), cs4)

mutual

/-- Parse a JSON value (model of the grammar accepted by `JSON.parse`).
The fuel argument strictly decreases on every recursive call; the top
level supplies more fuel than any parse can consume. -/
def pVal : Nat → List Char → Option (JsVal × List Char)
  | 0, _ => none
  | fuel + 1, cs0 =>
    let cs := skipWs cs0
    match cs with
    | [] => none
    | c :: rest =>
      if c = '\"' then
        match pStrBody (rest.length + 1) rest [] with
        | some (s, r) => some (JsVal.str s, r)
        | none => none
      else if c = braceOpen then pObj fuel rest
      else if c = '[' then pArr fuel rest
      else if c = 't' then (pLit ['t', 'r', 'u', 'e'] cs).map (fun r => (JsVal.bool true, r))
      else if c = 'f' then (pLit ['f', 'a', 'l', 's', 'e'] cs).map (fun r => (JsVal.bool false, r))
      else if c = 'n' then (pLit ['n', 'u', 'l', 'l'] cs).map (fun r => (JsVal.null, r))
      else
        match pNum cs with
        | some (lex, r) => some (JsVal.num lex, r)
        | none => none

/-- Parse the remainder of a JSON array (the `[` has been consumed). -/
def pArr : Nat → List Char → Option (JsVal × List Char)
  | 0, _ => none
  | fuel + 1, cs0 =>
    let cs := skipWs cs0
    match cs with
    | ']' :: rest => some (JsVal.arr [], rest)
    | _ => pArrLoop fuel cs []

/-- Parse the elements of a non-empty JSON array. -/
def pArrLoop : Nat → List Char → List JsVal → Option (JsVal × List Char)
  | 0, _, _ => none
  | fuel + 1, cs, acc =>
    match pVal fuel cs with
    | none => none
    | some (v, r) =>
      match skipWs r with
      | ',' :: rest => pArrLoop fuel rest (v :: acc)
      | ']' :: rest => some (JsVal.arr (v :: acc).reverse, rest)
      | _ => none

/-- Parse the remainder of a JSON object (the opening brace has been
consumed). -/
def pObj : Nat → List Char → Option (JsVal × List Char)
  | 0, _ => none
  | fuel + 1, cs0 =>
    let cs := skipWs cs0
    match cs with
    | [] => none
    | c :: rest =>
      if c = braceClose then some (JsVal.obj [], rest)
      else pObjLoop fuel cs []

/-- Parse the members of a non-empty JSON object.  Duplicate keys follow
JavaScript assignment semantics via `objAssign` (last value wins, first
position kept). -/
def pObjLoop : Nat → List Char → List (String × JsVal) → Option (JsVal × List Char)
  | 0, _, _ => none
  | fuel + 1, cs0, acc =>
    match skipWs cs0 with
    | '\"' :: rest =>
      match pStrBody (rest.length + 1) rest [] with
      | none => none
      | some (k, r1) =>
        match skipWs r1 with
        | ':' :: r2 =>
          match pVal fuel r2 with
          | none => none
          | some (v, r3) =>
            let acc2 := objAssign acc k v
            match skipWs r3 with
            | ',' :: r4 => pObjLoop fuel r4 acc2
            | c :: r4 => if c = braceClose then some (JsVal.obj acc2, r4) else none
            | [] => none
        | _ => none
    | _ => none

end

/-- Model of JavaScript `JSON.parse`: `none` models a thrown SyntaxError. -/
def jsonParse (s : String) : Option JsVal :=
  match pVal (2 * s.data.length + 16) s.data with
  | some (v, rest) => if skipWs rest = [] then some v else none
  | none => none

/-- Escape one character for a JSON string literal, as `JSON.stringify`
does. -/
def escCh (c : Char) : String :=
  if c = '\"' then "\\\""
  else if c = '\\' then "\\\\"
  else if c = '\n' then "\\n"
  else if c = '\r' then "\\r"
  else if c = '\t' then "\\t"
  else if c = Char.ofNat 8 then "\\b"
  else if c = Char.ofNat 12 then "\\f"
  else if c.toNat < 32 then
    let d1 := (c.toNat / 16) % 16
    let d2 := c.toNat % 16
    let hx := fun (d : Nat) => if d < 10 then String.singleton (Char.ofNat ('0'.toNat + d))
      else String.singleton (Char.ofNat ('a'.toNat + d - 10))
    "\\u00" ++ hx d1 ++ hx d2
  else String.singleton c

/-- Serialize a string as a JSON string literal. -/
def serStrLit (s : String) : String :=
  "\"" ++ String.join (s.data.map escCh) ++ "\""

mutual

/-- Model of `JSON.stringify` on a defined value (no indentation).  An
`undef` inside an array prints as `null` and an `undef` field value is
dropped, as in JavaScript. -/
def serJson : JsVal → String
  | JsVal.undef => "null"
  | JsVal.null => "null"
  | JsVal.bool true => "true"
  | JsVal.bool false => "false"
  | JsVal.num lex => lex
  | JsVal.str s => serStrLit s
  | JsVal.arr es => "[" ++ String.intercalate "," (serJsonList es) ++ "]"
  | JsVal.obj fs => obrace ++ String.intercalate "," (serJsonFields fs) ++ cbrace

/-- Serialize the elements of an array. -/
def serJsonList : List JsVal → List String
  | [] => []
  | v :: vs => serJson v :: serJsonList vs

/-- Serialize the members of an object, dropping `undefined` values. -/
def serJsonFields : List (String × JsVal) → List String
  | [] => []
  | (k, v) :: fs =>
    match v with
    | JsVal.undef => serJsonFields fs
    | _ => (serStrLit k ++ ":" ++ serJson v) :: serJsonFields fs

end

/-- Model of a top-level `JSON.stringify` call: `JSON.stringify(undefined)`
evaluates to `undefined` (modelled as `none`), every other reachable value
serializes to a string. -/
def jsonStringifyJs : JsVal → Option String
  | JsVal.undef => none
  | v => some (serJson v)

/-- Model of JavaScript string coercion (template-literal interpolation).
Composite values are approximated by their JSON text; no claim exercises
that corner. -/
def jsDisplay : JsVal → String
  | JsVal.undef => "undefined"
  | JsVal.null => "null"
  | JsVal.bool true => "true"
  | JsVal.bool false => "false"
  | JsVal.num lex => lex
  | JsVal.str s => s
  | v => serJson v

/-- Does the decimal part of a candidate numeric string parse under
JavaScript `Number` coercion (digits with optional sign handled by the
caller, optional fraction, optional exponent)? -/
def isJsNumericDec (cs0 : List Char) : Bool :=
  let ip := cs0.takeWhile isDigitCh
  let cs1 := cs0.dropWhile isDigitCh
  let hasDot : Bool := match cs1 with
    | '.' :: _ => true
    | _ => false
  let fcs := match cs1 with
    | '.' :: rest => rest
    | _ => cs1
  let fp := if hasDot then fcs.takeWhile isDigitCh else []
  let cs2 := if hasDot then fcs.dropWhile isDigitCh else cs1
  if ip.isEmpty && fp.isEmpty then false
  else
    match cs2 with
    | [] => true
    | e :: rest =>
      if e = 'e' || e = 'E' then
        let rest2 := match rest with
          | '+' :: r => r
          | '-' :: r => r
          | _ => rest
        !(rest2.takeWhile isDigitCh).isEmpty && (rest2.dropWhile isDigitCh).isEmpty
      else false

/-- Model of the JavaScript test `!isNaN(Number(v))` for a trimmed,
non-empty string `v`: decimal, hexadecimal, binary, octal and Infinity
forms are numeric; everything else coerces to NaN. -/
def isJsNumericStr (v : String) : Bool :=
  let cs := v.data
  let body := match cs with
    | '+' :: r => r
    | '-' :: r => r
    | _ => cs
  if body = "Infinity".data then true
  else
    match cs with
    | '0' :: x :: rest =>
      if x = 'x' || x = 'X' then !rest.isEmpty && rest.all isHexDigitCh
      else if x = 'b' || x = 'B' then !rest.isEmpty && rest.all (fun c => c = '0' || c = '1')
      else if x = 'o' || x = 'O' then !rest.isEmpty && rest.all (fun c => '0' ≤ c && c ≤ '7')
      else isJsNumericDec body
    | _ => isJsNumericDec body

/-- Coercion applied to the value of a `key=value` optional parameter
(request-transformers.js lines 28-32): `"true"`/`"false"` become booleans,
numeric strings become numbers, everything else stays a string. -/
def kvCoerce (v : String) : JsVal :=
  if v = "true" then JsVal.bool true
  else if v = "false" then JsVal.bool false
  else if isJsNumericStr v then JsVal.num v
  else JsVal.str v

/-- The comma-separated `key=value` fallback branch of
`parseOptionalParams` (request-transformers.js lines 21-36). -/
def kvParse (s : String) : List (String × JsVal) :=
  (jsSplitCh s ',').foldl
    (fun acc pair =>
      let parts := jsSplitCh pair '='
      let key := jsTrim ((parts.get? 0).getD "")
      match parts.get? 1 with
      | none => acc
      | some v0 =>
        let v := jsTrim v0
        if key = "" ∨ v = "" then acc else objAssign acc key (kvCoerce v))
    []

/-- Embedding of `parseOptionalParams` (request-transformers.js lines
12-38): empty or blank input yields an empty object, otherwise the string
is parsed as JSON, falling back to the comma-separated `key=value` format
when `JSON.parse` throws. -/
def parseOptionalParams (s : String) : JsVal :=
  if s = "" ∨ jsTrim s = "" then JsVal.obj []
  else
    match jsonParse s with
    | some j => j
    | none => JsVal.obj (kvParse s)

/-- The reserved field names of the chat payload builders
(request-transformers.js lines 77 and 116). -/
def RESERVED_FIELDS : List String := ["messages", "stream"]

/-- The `messages` value computed by the chat payload builders: the full
history, or a one-element array holding the last message
(`messages[messages.length - 1]`, which is `undefined` on an empty
array). -/
def defaultChatMessages (messages : List JsVal) (useChatHistory : Bool) : JsVal :=
  JsVal.arr (if useChatHistory then messages else [(messages.getLast?).getD JsVal.undef])

/-- The merge loop shared by both chat payload builders: every key of the
parsed optional parameters that is not reserved is assigned into the
payload (`Object.keys(parsedParams).forEach(...)`). -/
def mergeOptionalParams (payload : List (String × JsVal)) (params : JsVal) :
    List (String × JsVal) :=
  (jsKeys params).foldl
    (fun p k => if k ∈ RESERVED_FIELDS then p else objAssign p k (jsGet params k))
    payload

/-- Embedding of `buildChatPayload` (request-transformers.js lines
75-103).  The payload is the field list of the JS object in insertion order. -/
def buildChatPayload (messages : List JsVal) (useChatHistory : Bool)
    (optionalParams : String) : List (String × JsVal) :=
  let payload : List (String × JsVal) :=
    [("messages", defaultChatMessages messages useChatHistory),
     ("model", JsVal.str "nvidia/nemotron"),
     ("stream", JsVal.bool false),
     ("temperature", JsVal.num "0.7")]
  if ¬(optionalParams = "" ∨ jsTrim optionalParams = "") then
    mergeOptionalParams payload (parseOptionalParams optionalParams)
  else payload

/-- Embedding of `buildChatStreamPayload` (request-transformers.js lines
114-142); identical to `buildChatPayload` except `stream` is `true`. -/
def buildChatStreamPayload (messages : List JsVal) (useChatHistory : Bool)
    (optionalParams : String) : List (String × JsVal) :=
  let payload : List (String × JsVal) :=
    [("messages", defaultChatMessages messages useChatHistory),
     ("model", JsVal.str "nvidia/nemotron"),
     ("stream", JsVal.bool true),
     ("temperature", JsVal.num "0.7")]
  if ¬(optionalParams = "" ∨ jsTrim optionalParams = "") then
    mergeOptionalParams payload (parseOptionalParams optionalParams)
  else payload

/-- Embedding of `buildGeneratePayload` / `buildGenerateStreamPayload`
(request-transformers.js lines 47-64). -/
def buildGeneratePayload (message : String) : List (String × JsVal) :=
  [("input_message", JsVal.str message)]

/-- Embedding of `buildCaRagPayload` (request-transformers.js lines
151-159). -/
def buildCaRagPayload (message : String) : List (String × JsVal) :=
  [("state", JsVal.obj [("chat", JsVal.obj [("question", JsVal.str message)])])]

/-- One client-visible event on the HTTP response: headers written with a
status code, a body chunk, or stream termination. -/
inductive REvent where
  | head (status : Nat)
  | write (s : String)
  | close
deriving DecidableEq

/-- Model of the Node.js response object at the granularity the claims
observe: the ordered event trace, whether headers were sent, and whether
the response has ended.  Writes and terminations after the response has
ended do not reach the client (Node raises or ignores them), so they leave
the trace unchanged — in particular a second `res.end()` is a no-op and
the trace can only ever contain one `close` event. -/
structure Res where
  events : List REvent
  headersSent : Bool
  ended : Bool
deriving DecidableEq

/-- A fresh response. -/
def res0 : Res := ⟨[], false, false⟩

/-- Model of `res.writeHead(status, headers)`; header dictionaries are
elided. -/
def resHead (r : Res) (status : Nat) : Res :=
  if r.ended then r else ⟨r.events ++ [REvent.head status], true, r.ended⟩

/-- Model of `res.write(s)`. -/
def resWrite (r : Res) (s : String) : Res :=
  if r.ended then r else ⟨r.events ++ [REvent.write s], r.headersSent, r.ended⟩

/-- Model of `res.end(s)` with a body chunk. -/
def resEndData (r : Res) (s : String) : Res :=
  if r.ended then r else ⟨r.events ++ [REvent.write s, REvent.close], r.headersSent, true⟩

/-- Model of `res.end()` with no chunk (also `res.end(undefined)`). -/
def resEndNone (r : Res) : Res :=
  if r.ended then r else ⟨r.events ++ [REvent.close], r.headersSent, true⟩

/-- Model of `res.end(x)` where `x` is a string or `undefined`. -/
def resEndOpt (r : Res) : Option String → Res
  | some s => resEndData r s
  | none => resEndNone r

/-- The body chunks a trace delivers to the client, in order. -/
def writesOf (r : Res) : List String :=
  r.events.filterMap (fun e =>
    match e with
    | REvent.write s => some s
    | _ => none)

/-- The full body text the client receives. -/
def clientBody (r : Res) : String := String.join (writesOf r)

/-- Model of a completed backend `fetch` result: the status code and the
body, presented as the chunk sequence the body reader yields.  `text()`
is the concatenation of the chunks. -/
structure BackendRes where
  status : Nat
  chunks : List String
deriving DecidableEq

/-- The `ok` flag of a fetch response (status in the 2xx range). -/
def BackendRes.ok (r : BackendRes) : Bool := 200 ≤ r.status && r.status < 300

/-- The `await backendRes.text()` result. -/
def BackendRes.text (r : BackendRes) : String := String.join r.chunks

/-- The shared non-success branch of every response processor
(response-processors.js, e.g. lines 103-107): mirror the backend status
and raw body to the client. -/
def mirroredError (r : BackendRes) : Res :=
  resEndData (resHead res0 r.status) (BackendRes.text r)

/-- The data payload a stream processor extracts from a `data: ` line:
`line.slice(6).trim()`. -/
def dataLinePayload (l : String) : String := jsTrim (strDropN l 6)

/-- Helper for `splitSubstr`: scan the input, cutting at every occurrence
of the (non-empty) separator.  Fuel decreases every step; the caller
supplies enough for the whole input. -/
def splitSubstrAux (sep : List Char) : Nat → List Char → List Char → List String
  | 0, rest, acc => [String.mk (acc.reverse ++ rest)]
  | fuel + 1, cs, acc =>
    if sep.isPrefixOf cs then
      String.mk acc.reverse :: splitSubstrAux sep fuel (cs.drop sep.length) []
    else
      match cs with
      | [] => [String.mk acc.reverse]
      | c :: rest => splitSubstrAux sep fuel rest (c :: acc)

/-- Model of JavaScript `s.split(sep)` for a non-empty string separator. -/
def splitSubstr (sep s : String) : List String :=
  splitSubstrAux sep.data (s.data.length + 1) s.data []

/-- Embedding of `processIntermediateData` (response-processors.js lines
21-46): re-emit the parsed payload wrapped in sentinel tags, with
defaulted fields; parse failures are ignored. -/
def procIntermediate (line : String) (r : Res) : Res :=
  match (splitSubstr "intermediate_data: " line).get? 1 with
  | none => r
  | some d =>
    match jsonParse d with
    | none => r
    | some payload =>
      let msg := JsVal.obj
        [("id", jsOr (jsGet payload "id") (JsVal.str "")),
         ("status", jsOr (jsGet payload "status") (JsVal.str "in_progress")),
         ("error", jsOr (jsGet payload "error") (JsVal.str "")),
         ("type", JsVal.str "system_intermediate"),
         ("parent_id", jsOr (jsGet payload "parent_id") (JsVal.str "default")),
         ("intermediate_parent_id",
          jsOr (jsGet payload "intermediate_parent_id") (JsVal.str "default")),
         ("content", JsVal.obj
           [("name", jsOr (jsGet payload "name") (JsVal.str "Step")),
            ("payload", jsOr (jsGet payload "payload") (JsVal.str "No details"))]),
         ("time_stamp", jsOr (jsGet payload "time_stamp") (JsVal.str "default"))]
      resWrite r ("<intermediatestep>" ++ serJson msg ++ "</intermediatestep>")

/-- Embedding of `processObservabilityTrace` (response-processors.js lines
48-60). -/
def procObsTrace (line : String) (r : Res) : Res :=
  match (splitSubstr "observability_trace: " line).get? 1 with
  | none => r
  | some d =>
    match jsonParse d with
    | none => r
    | some payload =>
      let v := jsGet payload "observability_trace_id"
      if jsTruthy v then
        resWrite r ("<observabilitytraceid>" ++ jsDisplay v ++ "</observabilitytraceid>")
      else r

/-- Embedding of `processCommonLineTypes` (response-processors.js lines
68-82): intermediate-data lines, observability-trace lines, and lines that
trim to a leading brace; the flag reports whether the line was handled. -/
def commonLine (line : String) (r : Res) : Res × Bool :=
  if strStarts line "intermediate_data: " then (procIntermediate line r, true)
  else if strStarts line "observability_trace: " then (procObsTrace line r, true)
  else if strStarts (jsTrim line) obrace then (resWrite r (jsTrim line), true)
  else (r, false)

/-- Embedding of `processRemainingBuffer` (response-processors.js lines
90-95): flush a trailing buffered fragment that looks like a JSON
object. -/
def remainingBuf (buf : String) (r : Res) : Res :=
  let rem := jsTrim buf
  if strStarts rem obrace then resWrite r rem else r

/-- The per-line body of the `processChatStream` read loop
(response-processors.js lines 133-154).  The boolean result records the
early `return` taken on a DONE sentinel (which also skips the remaining
lines of the chunk). -/
def chatPerLines : List String → Res → Res × Bool
  | [], r => (r, false)
  | l :: ls, r =>
    if strStarts l "data: " then
      let d := dataLinePayload l
      if d = "[DONE]" ∨ d = "DONE" then (resEndNone r, true)
      else
        let r2 := match jsonParse d with
          | some parsed =>
            let c := jsOr
              (jsGet (jsGet (jsIndexN (jsGet parsed "choices") 0) "message") "content")
              (jsGet (jsGet (jsIndexN (jsGet parsed "choices") 0) "delta") "content")
            if jsTruthy c then
              match c with
              | JsVal.str s => resWrite r s
              | _ => r
            else r
          | none => r
        chatPerLines ls r2
    else chatPerLines ls (commonLine l r).1

/-- The per-line body of the `processGenerateStream` read loop
(response-processors.js lines 236-254): forward the trimmed data payload
itself when its JSON carries a truthy string `value`. -/
def genPerLines : List String → Res → Res × Bool
  | [], r => (r, false)
  | l :: ls, r =>
    if strStarts l "data: " then
      let d := dataLinePayload l
      if d = "[DONE]" ∨ d = "DONE" then (resEndNone r, true)
      else
        let r2 := match jsonParse d with
          | some parsed =>
            if jsTruthy (jsGet parsed "value") && jsIsStr (jsGet parsed "value") then
              resWrite r d
            else r
          | none => r
        genPerLines ls r2
    else genPerLines ls (commonLine l r).1

/-- The shared chunk loop of the streaming processors
(response-processors.js lines 120-162 and 223-262): accumulate a buffer,
split on newlines, keep the trailing partial line, hand complete lines to
the per-line body, and honour its early return.  When the reader is
exhausted the remaining buffer is flushed and the `finally` clause ends
the response; after an early return the `finally` end is a no-op. -/
def streamLoop (perLines : List String → Res → Res × Bool) :
    List String → String → Res → Res
  | [], buf, r => resEndNone (remainingBuf buf r)
  | c :: cs, buf, r =>
    let buffer := buf ++ c
    let parts := jsSplitCh buffer '\n'
    let buf2 := (parts.getLast?).getD ""
    let pr := perLines parts.dropLast r
    if pr.2 then resEndNone pr.1 else streamLoop perLines cs buf2 pr.1

/-- Embedding of `processChatStream` (response-processors.js lines
102-163). -/
def processChatStream (r : BackendRes) : Res :=
  if r.ok = false then mirroredError r
  else streamLoop chatPerLines r.chunks "" (resHead res0 200)

/-- Embedding of `processGenerateStream` (response-processors.js lines
205-263). -/
def processGenerateStream (r : BackendRes) : Res :=
  if r.ok = false then mirroredError r
  else streamLoop genPerLines r.chunks "" (resHead res0 200)

/-- The content-extraction chain of `processChat` (response-processors.js
lines 188-192). -/
def chatContent (parsed : JsVal) : JsVal :=
  jsOr (jsGet (jsGet (jsIndexN (jsGet parsed "choices") 0) "message") "content")
    (jsOr (jsGet parsed "message") (jsOr (jsGet parsed "answer") (jsGet parsed "value")))

/-- Embedding of `processChat` (response-processors.js lines 168-200). -/
def processChat (r : BackendRes) : Res :=
  if r.ok = false then mirroredError r
  else
    let data := BackendRes.text r
    match jsonParse data with
    | some parsed =>
      let content := chatContent parsed
      match content with
      | JsVal.str s => resEndData (resHead res0 200) s
      | c => resEndOpt (resHead res0 200) (jsonStringifyJs c)
    | none => resEndData (resHead res0 200) data

/-- Embedding of `processGenerate` (response-processors.js lines 268-288):
the backend body is forwarded verbatim with status 200. -/
def processGenerate (r : BackendRes) : Res :=
  if r.ok = false then mirroredError r
  else resEndData (resHead res0 200) (BackendRes.text r)

/-- The answer-extraction chain of `processCaRag` (response-processors.js
line 304): `parsed?.state?.chat?.answer || parsed?.answer || data`. -/
def caRagAnswer (parsed : JsVal) (data : String) : JsVal :=
  jsOr (jsGet (jsGet (jsGet parsed "state") "chat") "answer")
    (jsOr (jsGet parsed "answer") (JsVal.str data))

/-- Embedding of `processCaRag` (response-processors.js lines 294-320). -/
def processCaRag (r : BackendRes) : Res :=
  if r.ok = false then mirroredError r
  else
    let data := BackendRes.text r
    match jsonParse data with
    | some parsed =>
      let answer := caRagAnswer parsed data
      match answer with
      | JsVal.str s => resEndData (resHead res0 200) s
      | a => resEndOpt (resHead res0 200) (jsonStringifyJs a)
    | none => resEndData (resHead res0 200) data

/-- The result shape of the SSRF validators in
src/utils/security/url-validation (only their interface is relied on by
server.js; the validator itself is passed as a parameter below). -/
structure ValidationResult where
  isValid : Bool
  error : String

/-- The configurable pieces of src/constants/index.js and server.js that
the dispatcher reads: the HTTP proxy prefix (`HTTP_PROXY_PATH`), the
WebSocket proxy path (`WEBSOCKET_PROXY_PATH`) and the upstream origin. -/
structure GatewayCfg where
  httpProxyPath : String
  wsProxyPath : String
  upstreamHttpOrigin : String

/-- The route table `EXTENDED_BACKEND_TARGETS` (constants/index.js lines
56-61). -/
def extendedBackendTarget (p : String) : Option String :=
  if p = "/init" then some "NAT_BACKEND"
  else if p = "/call" then some "NAT_BACKEND"
  else if p = "/update-data-stream" then some "NEXTJS"
  else if p = "/feedback" then some "NAT_BACKEND"
  else none

/-- Which processor a core route uses. -/
inductive ProcKind where
  | chatStream
  | chat
  | generateStream
  | generate
deriving DecidableEq

/-- The terminal disposition the HTTP request handler picks for a request
(server.js lines 169-330); each constructor is one of the mutually
exclusive handler exits. -/
inductive HandlerAction where
  | preflightRes
  | forbidden (msg : String)
  | fetchProcess (k : ProcKind) (targetUrl : String)
  | caRagGated (targetUrl : String)
  | nextWeb
  | backendWeb (rewrittenUrl : String)
deriving DecidableEq

/-- Does the chosen disposition forward the request anywhere (backend
fetch, init-gated fetch, reverse proxy to either upstream)? -/
def actionForwards : HandlerAction → Bool
  | HandlerAction.preflightRes => false
  | HandlerAction.forbidden _ => false
  | _ => true

/-- Embedding of the HTTP request dispatcher (server.js lines 169-330).
The SSRF validator `validateProxyHttpPath` lives outside the embedded
sources and is passed in as a function; `method`, `pathname` and `search`
are the parsed request pieces.  The body mirrors the original branch
order: CORS preflight, SSRF validation, core-route dispatch, extended
NEXTJS routes, transparent backend proxy, and the Next.js fallthrough for
non-prefixed paths. -/
def handleRequest (cfg : GatewayCfg) (validate : String → ValidationResult)
    (method pathname search : String) : HandlerAction :=
  if strStarts pathname (cfg.httpProxyPath ++ "/") then
    if method = "OPTIONS" then HandlerAction.preflightRes
    else if (validate pathname).isValid = false then
      HandlerAction.forbidden (validate pathname).error
    else
      let backendPath0 := strDropN pathname cfg.httpProxyPath.length
      let backendPath := if backendPath0 = "" then "/" else backendPath0
      let targetUrl := cfg.upstreamHttpOrigin ++ backendPath ++ search
      if backendPath = "/chat/stream" then HandlerAction.fetchProcess ProcKind.chatStream targetUrl
      else if backendPath = "/chat" then HandlerAction.fetchProcess ProcKind.chat targetUrl
      else if backendPath = "/generate/stream" then
        HandlerAction.fetchProcess ProcKind.generateStream targetUrl
      else if backendPath = "/generate" then HandlerAction.fetchProcess ProcKind.generate targetUrl
      else if backendPath = "/call" then HandlerAction.caRagGated targetUrl
      else if extendedBackendTarget backendPath = some "NEXTJS" then HandlerAction.nextWeb
      else HandlerAction.backendWeb (backendPath ++ search)
  else HandlerAction.nextWeb

/-- The terminal disposition of a WebSocket upgrade (server.js lines
333-393). -/
inductive UpgradeAction where
  | wsForbidden
  | wsBackend (rewrittenPath : String)
  | wsNext
deriving DecidableEq

/-- Embedding of the WebSocket upgrade handler (server.js lines 333-393):
on the configured WebSocket proxy path the SSRF validator runs first; a
failure writes a raw `HTTP/1.1 403 Forbidden` on the socket and destroys
it (`wsForbidden`), success rewrites to the fixed backend path
`/websocket`.  Other paths relay to the Next.js dev server. -/
def handleUpgrade (cfg : GatewayCfg) (validateWs : String → ValidationResult)
    (pathname search : String) : UpgradeAction :=
  if pathname = cfg.wsProxyPath ∨ strStarts pathname (cfg.wsProxyPath ++ "?") then
    if (validateWs pathname).isValid = false then UpgradeAction.wsForbidden
    else UpgradeAction.wsBackend ("/websocket" ++ search)
  else UpgradeAction.wsNext

/-- The conversation init key `RAG_UUID + "-" + conversationId`
(server.js lines 243-244); an absent or empty `conversation-id` header is
falsy in JS, so it defaults to the sentinel `"default"`. -/
def convInitKey (uuid hdr : String) : String :=
  uuid ++ "-" ++ (if hdr = "" then "default" else hdr)

/-- The JSON error body sent when the init call fails (server.js lines
269-274). -/
def caRagInitFailBody (detail : String) : String :=
  serJson (JsVal.obj
    [("error", JsVal.str "CA RAG initialization failed"),
     ("detail", JsVal.str detail)])

/-- One inbound request to the stateful-workflow `/call` route: the
`conversation-id` header (empty string modelling an absent header), the
backend response to the `/init` call were one issued, and the backend
response to the forwarded `/call` request were one issued. -/
structure CaRagReq where
  convHeader : String
  initRes : BackendRes
  callRes : BackendRes
deriving DecidableEq

/-- The observable outcome of `doCaRagWithInit` for one request: the
updated initialized-conversation set, whether an `/init` fetch was issued,
whether the original request was forwarded, and the client response
trace. -/
structure GateResult where
  set : List String
  initIssued : Bool
  forwarded : Bool
  res : Res
deriving DecidableEq

/-- Embedding of `doCaRagWithInit` (server.js lines 241-296) for one
request, with the process-wide `initializedCaRagConversations` set passed
and returned explicitly.  Fetch-level exceptions (the 502 catch branch)
are outside this model: both backend calls are modelled as completed
responses. -/
def doCaRagWithInit (uuid : String) (set : List String) (req : CaRagReq) : GateResult :=
  let key := convInitKey uuid req.convHeader
  if set.contains key then
    ⟨set, false, true, processCaRag req.callRes⟩
  else if req.initRes.ok then
    ⟨key :: set, true, true, processCaRag req.callRes⟩
  else
    ⟨set, true, false,
      resEndData (resHead res0 req.initRes.status)
        (caRagInitFailBody (BackendRes.text req.initRes))⟩

/-- Sequential processing of a series of `/call` requests, threading the
initialized-conversation set (the single-threaded gateway event loop
runs each init phase to completion in arrival order under this
model). -/
def runCaRagSeq (uuid : String) : List String → List CaRagReq → List GateResult
  | _, [] => []
  | set, req :: reqs =>
    let g := doCaRagWithInit uuid set req
    g :: runCaRagSeq uuid g.set reqs

/-- The write (if any) that the generate-stream loop body produces for a
single non-DONE `data: ` line: the trimmed payload after the prefix, kept
only when its JSON carries a truthy string `value` (exactly the
`parsed?.value && typeof parsed.value === "string"` test in the source, line 245). -/
def genLineForwarded (l : String) : Option String :=
  match jsonParse (dataLinePayload l) with
  | some parsed =>
    if jsTruthy (jsGet parsed "value") && jsIsStr (jsGet parsed "value") then
      some (dataLinePayload l)
    else none
  | none => none

/-- Assigning one key never changes the lookup of a different key. -/
theorem objAssign_lookup_ne (p : List (String × JsVal)) (k : String) (v : JsVal)
    (q : String) (h : k ≠ q) : objLookup (objAssign p k v) q = objLookup p q := by
  induction p with
  | nil =>
    simp only [objAssign, objLookup]
    rw [if_neg h]
  | cons hd tl ih =>
    obtain ⟨k0, v0⟩ := hd
    simp only [objAssign]
    by_cases hk : k0 = k
    · rw [if_pos hk]
      simp only [objLookup]
      rw [if_neg (hk ▸ h), if_neg (hk ▸ h)]
    · rw [if_neg hk]
      simp only [objLookup]
      by_cases hq : k0 = q
      · rw [if_pos hq, if_pos hq]
      · rw [if_neg hq, if_neg hq, ih]

/-- The reserved-field filter of the merge loop keeps the value of every reserved key
intact, whatever keys the parsed parameters carry. -/
theorem foldl_assign_preserves (j : JsVal) (q : String) (hq : q ∈ RESERVED_FIELDS) :
    ∀ (ks : List String) (p : List (String × JsVal)),
      objLookup (ks.foldl
        (fun p k => if k ∈ RESERVED_FIELDS then p else objAssign p k (jsGet j k)) p) q
        = objLookup p q := by
  intro ks
  induction ks with
  | nil => intro p; rfl
  | cons k ks ih =>
    intro p
    rw [List.foldl_cons, ih]
    by_cases hk : k ∈ RESERVED_FIELDS
    · rw [if_pos hk]
    · rw [if_neg hk]
      exact objAssign_lookup_ne p k _ q (fun he => hk (he ▸ hq))

/-- `mergeOptionalParams` never touches a reserved key. -/
theorem mergeOptionalParams_reserved (p : List (String × JsVal)) (j : JsVal)
    (q : String) (hq : q ∈ RESERVED_FIELDS) :
    objLookup (mergeOptionalParams p j) q = objLookup p q :=
  foldl_assign_preserves j q hq (jsKeys j) p

/-- C1 counterexample: the claim says a caller-supplied `model` key is
never merged, but `RESERVED_FIELDS` is only `["messages", "stream"]`, so
the optional-parameters string `"model=x"` overrides the fixed model
identifier `"nvidia/nemotron"` in the built payload. -/
theorem c1_model_key_counterexample :
    objLookup (buildChatPayload [JsVal.str "hi"] true "model=x") "model"
      = some (JsVal.str "x")
    ∧ JsVal.str "x" ≠ JsVal.str "nvidia/nemotron" := by
  refine ⟨rfl, ?_⟩
  intro h
  injection h with h2
  exact absurd h2 (by decide)

/-- C1 (amended): for every message list and optional-parameters string,
both chat payload builders keep `messages` equal to the computed default
and `stream` equal to the fixed per-endpoint flag (`false` for chat, `true`
for chat-stream); caller-supplied `messages`/`stream` keys are never
merged.  (The `model` key is *not* reserved and can be overridden.) -/
theorem c1_amended_reserved_keys (messages : List JsVal) (useChatHistory : Bool)
    (optionalParams : String) :
    objLookup (buildChatPayload messages useChatHistory optionalParams) "messages"
      = some (defaultChatMessages messages useChatHistory)
    ∧ objLookup (buildChatPayload messages useChatHistory optionalParams) "stream"
      = some (JsVal.bool false)
    ∧ objLookup (buildChatStreamPayload messages useChatHistory optionalParams) "messages"
      = some (defaultChatMessages messages useChatHistory)
    ∧ objLookup (buildChatStreamPayload messages useChatHistory optionalParams) "stream"
      = some (JsVal.bool true) := by
  simp only [buildChatPayload, buildChatStreamPayload]
  by_cases hg : (optionalParams = "" ∨ jsTrim optionalParams = "")
  · rw [if_neg (not_not_intro hg), if_neg (not_not_intro hg)]
    exact ⟨rfl, rfl, rfl, rfl⟩
  · rw [if_pos hg, if_pos hg]
    refine ⟨?_, ?_, ?_, ?_⟩ <;>
      rw [mergeOptionalParams_reserved _ _ _ (by decide)] <;> rfl

/-- C9 counterexample: `"a=b"` is malformed JSON, yet the built payload is
not the defaults-only payload — the builder falls back to the
comma-separated `key=value` format and merges `a = "b"`. -/
theorem c9_malformed_json_counterexample :
    jsonParse "a=b" = none
    ∧ buildChatPayload [JsVal.str "hi"] true "a=b"
      ≠ buildChatPayload [JsVal.str "hi"] true "" := by
  refine ⟨rfl, ?_⟩
  intro h
  have h2 := congrArg (fun p => objLookup p "a") h
  have e1 : objLookup (buildChatPayload [JsVal.str "hi"] true "a=b") "a"
      = some (JsVal.str "b") := rfl
  have e2 : objLookup (buildChatPayload [JsVal.str "hi"] true "") "a" = none := rfl
  simp only [e1, e2] at h2
  exact Option.noConfusion h2

/-- C9 (amended): a malformed-JSON optional-parameters string never raises
(the embedding is total, and the fallback path in the source throws
nothing); the builder falls back to the comma-separated `key=value`
format, and whenever that fallback parse yields no pairs the payload
equals the defaults-only payload.  (This sufficient condition is not
necessary: a fallback pair that is reserved, or that merely re-states a
default, also leaves the payload at the defaults.) -/
theorem c9_amended_malformed_fallback (messages : List JsVal) (useChatHistory : Bool)
    (s : String) (hjson : jsonParse s = none) (hkv : kvParse s = []) :
    buildChatPayload messages useChatHistory s
      = buildChatPayload messages useChatHistory ""
    ∧ buildChatStreamPayload messages useChatHistory s
      = buildChatStreamPayload messages useChatHistory "" := by
  simp only [buildChatPayload, buildChatStreamPayload]
  by_cases hg : (s = "" ∨ jsTrim s = "")
  · rw [if_neg (not_not_intro hg), if_neg (not_not_intro hg)]
    constructor <;> rfl
  · rw [if_pos hg, if_pos hg]
    simp only [parseOptionalParams, if_neg hg, hjson, hkv]
    constructor <;> rfl

/-- Witness for the amended C9 at the concrete malformed string `"?"`. -/
theorem c9_amended_malformed_fallback_witness :
    jsonParse "?" = none ∧ kvParse "?" = []
    ∧ buildChatPayload [JsVal.str "hi"] true "?"
      = buildChatPayload [JsVal.str "hi"] true "" :=
  ⟨rfl, rfl, (c9_amended_malformed_fallback [JsVal.str "hi"] true "?" rfl rfl).1⟩

/-- C2: on the HTTP side, whenever a request under the API-proxy prefix is
not a CORS preflight (the only case in which the dispatcher consults the
validator) and the SSRF validator reports the path invalid, the chosen handler
disposition is exactly the 403 response carrying the error text of the validator and
no forwarding or outbound fetch of any kind; on the WebSocket side, a
failed validation on the WebSocket-proxy path yields exactly the
raw-403-and-destroy disposition. -/
theorem c2_ssrf_block :
    (∀ (cfg : GatewayCfg) (validate : String → ValidationResult)
      (method pathname search : String),
      strStarts pathname (cfg.httpProxyPath ++ "/") = true →
      method ≠ "OPTIONS" →
      (validate pathname).isValid = false →
      handleRequest cfg validate method pathname search
        = HandlerAction.forbidden (validate pathname).error
      ∧ actionForwards (handleRequest cfg validate method pathname search) = false)
    ∧ (∀ (cfg : GatewayCfg) (validateWs : String → ValidationResult)
      (pathname search : String),
      (pathname = cfg.wsProxyPath ∨ strStarts pathname (cfg.wsProxyPath ++ "?") = true) →
      (validateWs pathname).isValid = false →
      handleUpgrade cfg validateWs pathname search = UpgradeAction.wsForbidden) := by
  constructor
  · intro cfg validate method pathname search h1 h2 h3
    have he : handleRequest cfg validate method pathname search
        = HandlerAction.forbidden (validate pathname).error := by
      simp [handleRequest, h1, h2, h3]
    exact ⟨he, by rw [he]; rfl⟩
  · intro cfg validateWs pathname search h1 h2
    simp [handleUpgrade, h1, h2]

/-- Witness for C2 at a concrete rejecting validator and concrete paths. -/
theorem c2_ssrf_block_witness :
    handleRequest ⟨"/api", "/ws", "http://backend"⟩ (fun _ => ⟨false, "blocked"⟩)
      "POST" "/api/evil" "" = HandlerAction.forbidden "blocked"
    ∧ actionForwards (handleRequest ⟨"/api", "/ws", "http://backend"⟩
        (fun _ => ⟨false, "blocked"⟩) "POST" "/api/evil" "") = false
    ∧ handleUpgrade ⟨"/api", "/ws", "http://backend"⟩ (fun _ => ⟨false, "blocked"⟩)
        "/ws" "" = UpgradeAction.wsForbidden := by
  have h := c2_ssrf_block.1 ⟨"/api", "/ws", "http://backend"⟩
    (fun _ => ⟨false, "blocked"⟩) "POST" "/api/evil" "" (by decide) (by decide) rfl
  exact ⟨h.1, h.2, c2_ssrf_block.2 ⟨"/api", "/ws", "http://backend"⟩
    (fun _ => ⟨false, "blocked"⟩) "/ws" "" (Or.inl rfl) rfl⟩

/-- C4: a fresh conversation key whose init call fails short-circuits: the
client trace carries the status code of the init call and a JSON body embedding
the body of the init call as `detail`, the original request is not forwarded,
and the key is not added to the initialized set. -/
theorem c4_init_failure_short_circuit (uuid : String) (set : List String)
    (req : CaRagReq)
    (hnotin : set.contains (convInitKey uuid req.convHeader) = false)
    (hfail : req.initRes.ok = false) :
    doCaRagWithInit uuid set req
      = ⟨set, true, false,
          ⟨[REvent.head req.initRes.status,
            REvent.write (caRagInitFailBody (BackendRes.text req.initRes)),
            REvent.close], true, true⟩⟩ := by
  have hmem : convInitKey uuid req.convHeader ∉ set := by simpa using hnotin
  simp [doCaRagWithInit, hmem, hfail, resHead, resEndData, res0]

/-- Witness for C4 at a concrete failing init response. -/
theorem c4_init_failure_short_circuit_witness :
    ([] : List String).contains (convInitKey "123456" "c1") = false
    ∧ BackendRes.ok ⟨500, ["boom"]⟩ = false
    ∧ doCaRagWithInit "123456" [] ⟨"c1", ⟨500, ["boom"]⟩, ⟨200, ["r"]⟩⟩
      = ⟨[], true, false,
          ⟨[REvent.head 500, REvent.write (caRagInitFailBody "boom"), REvent.close],
            true, true⟩⟩ :=
  ⟨rfl, rfl,
    c4_init_failure_short_circuit "123456" [] ⟨"c1", ⟨500, ["boom"]⟩, ⟨200, ["r"]⟩⟩ rfl rfl⟩

/-- C7: every processor mirrors a non-success backend response verbatim —
the client trace is exactly the backend status followed by the raw body
text, terminated once. -/
theorem c7_error_mirroring (r : BackendRes) (h : r.ok = false) :
    processChat r
      = ⟨[REvent.head r.status, REvent.write (BackendRes.text r), REvent.close], true, true⟩
    ∧ processChatStream r
      = ⟨[REvent.head r.status, REvent.write (BackendRes.text r), REvent.close], true, true⟩
    ∧ processGenerate r
      = ⟨[REvent.head r.status, REvent.write (BackendRes.text r), REvent.close], true, true⟩
    ∧ processGenerateStream r
      = ⟨[REvent.head r.status, REvent.write (BackendRes.text r), REvent.close], true, true⟩
    ∧ processCaRag r
      = ⟨[REvent.head r.status, REvent.write (BackendRes.text r), REvent.close], true, true⟩ := by
  have hm : mirroredError r
      = ⟨[REvent.head r.status, REvent.write (BackendRes.text r), REvent.close], true, true⟩ := by
    simp [mirroredError, resHead, resEndData, res0]
  refine ⟨?_, ?_, ?_, ?_, ?_⟩ <;>
    simp [processChat, processChatStream, processGenerate, processGenerateStream,
      processCaRag, h, hm]

/-- Witness for C7 at a concrete 500 response. -/
theorem c7_error_mirroring_witness :
    BackendRes.ok ⟨500, ["oops"]⟩ = false
    ∧ processChat ⟨500, ["oops"]⟩
      = ⟨[REvent.head 500, REvent.write "oops", REvent.close], true, true⟩
    ∧ processGenerateStream ⟨500, ["oops"]⟩
      = ⟨[REvent.head 500, REvent.write "oops", REvent.close], true, true⟩ :=
  ⟨rfl, (c7_error_mirroring ⟨500, ["oops"]⟩ rfl).1,
    (c7_error_mirroring ⟨500, ["oops"]⟩ rfl).2.2.2.1⟩

/-- C8: on a successful backend response whose body is not valid JSON,
each non-streaming processor answers 200 with the raw body text. -/
theorem c8_invalid_json_passthrough (r : BackendRes) (hok : r.ok = true)
    (hparse : jsonParse (BackendRes.text r) = none) :
    processChat r
      = ⟨[REvent.head 200, REvent.write (BackendRes.text r), REvent.close], true, true⟩
    ∧ processGenerate r
      = ⟨[REvent.head 200, REvent.write (BackendRes.text r), REvent.close], true, true⟩
    ∧ processCaRag r
      = ⟨[REvent.head 200, REvent.write (BackendRes.text r), REvent.close], true, true⟩ := by
  refine ⟨?_, ?_, ?_⟩ <;>
    simp [processChat, processGenerate, processCaRag, hok, hparse,
      resHead, resEndData, res0]

/-- Witness for C8 at the concrete invalid body `"not json"`. -/
theorem c8_invalid_json_passthrough_witness :
    BackendRes.ok ⟨200, ["not json"]⟩ = true
    ∧ jsonParse "not json" = none
    ∧ processChat ⟨200, ["not json"]⟩
      = ⟨[REvent.head 200, REvent.write "not json", REvent.close], true, true⟩
    ∧ processCaRag ⟨200, ["not json"]⟩
      = ⟨[REvent.head 200, REvent.write "not json", REvent.close], true, true⟩ :=
  ⟨rfl, rfl, (c8_invalid_json_passthrough ⟨200, ["not json"]⟩ rfl rfl).1,
    (c8_invalid_json_passthrough ⟨200, ["not json"]⟩ rfl rfl).2.2⟩

/-- C10 counterexample: for the successful backend body
`{"choices":[{"message":{"content":""}}]}` the non-streaming chat
processor sends an *empty* client body (the extraction chain ends in
`undefined`, and `res.end(JSON.stringify(undefined))` is `res.end()`), not
the raw JSON body the claim predicts. -/
theorem c10_empty_content_counterexample :
    processChat ⟨200, ["\x7b\"choices\":[\x7b\"message\":\x7b\"content\":\"\"\x7d\x7d]\x7d"]⟩
      = ⟨[REvent.head 200, REvent.close], true, true⟩
    ∧ clientBody
        (processChat ⟨200, ["\x7b\"choices\":[\x7b\"message\":\x7b\"content\":\"\"\x7d\x7d]\x7d"]⟩)
      = ""
    ∧ BackendRes.text ⟨200, ["\x7b\"choices\":[\x7b\"message\":\x7b\"content\":\"\"\x7d\x7d]\x7d"]⟩
      ≠ "" := by
  refine ⟨by decide, rfl, by decide⟩

/-- C10 (amended): extraction fallback is decided by truthiness.  In the
stateful-workflow processor an empty (falsy) `state.chat.answer` together
with a falsy top-level `answer` falls through to the raw body text, which
is sent verbatim.  In the non-streaming chat processor there is no
raw-text fallback on the parse-success path: when the whole extraction
chain is `undefined` (preferred content empty and every fallback field
absent) the client receives an empty body.  (Only the all-`undefined`
chain is covered here: a falsy but defined final value such as `false`
takes the `JSON.stringify` branch of the source instead and is outside
this statement.) -/
theorem c10_amended_truthiness_fallback :
    (∀ (r : BackendRes) (parsed : JsVal), r.ok = true →
      jsonParse (BackendRes.text r) = some parsed →
      jsGet (jsGet (jsGet parsed "state") "chat") "answer" = JsVal.str "" →
      jsTruthy (jsGet parsed "answer") = false →
      processCaRag r
        = ⟨[REvent.head 200, REvent.write (BackendRes.text r), REvent.close], true, true⟩)
    ∧ (∀ (r : BackendRes) (parsed : JsVal), r.ok = true →
      jsonParse (BackendRes.text r) = some parsed →
      chatContent parsed = JsVal.undef →
      processChat r = ⟨[REvent.head 200, REvent.close], true, true⟩) := by
  constructor
  · intro r parsed hok hp ha hb
    have hans : caRagAnswer parsed (BackendRes.text r) = JsVal.str (BackendRes.text r) := by
      unfold caRagAnswer
      rw [ha]
      unfold jsOr
      rw [hb]
      simp [jsTruthy]
    simp [processCaRag, hok, hp, hans, resHead, resEndData, res0]
  · intro r parsed hok hp hc
    simp [processChat, hok, hp, hc, jsonStringifyJs, resEndOpt, resEndNone,
      resHead, res0]

/-- Witness for the amended C10 at concrete bodies: an empty
`state.chat.answer` yields the raw body for the stateful-workflow
processor; an empty first-choice content with no fallback fields yields an
empty chat body. -/
theorem c10_amended_truthiness_fallback_witness :
    jsonParse "\x7b\"state\":\x7b\"chat\":\x7b\"answer\":\"\"\x7d\x7d\x7d"
      = some (JsVal.obj [("state", JsVal.obj [("chat", JsVal.obj [("answer", JsVal.str "")])])])
    ∧ processCaRag ⟨200, ["\x7b\"state\":\x7b\"chat\":\x7b\"answer\":\"\"\x7d\x7d\x7d"]⟩
      = ⟨[REvent.head 200,
          REvent.write "\x7b\"state\":\x7b\"chat\":\x7b\"answer\":\"\"\x7d\x7d\x7d",
          REvent.close], true, true⟩
    ∧ processChat ⟨200, ["\x7b\"choices\":[\x7b\"message\":\x7b\"content\":\"\"\x7d\x7d]\x7d"]⟩
      = ⟨[REvent.head 200, REvent.close], true, true⟩ := by
  refine ⟨rfl, ?_, ?_⟩
  · exact c10_amended_truthiness_fallback.1
      ⟨200, ["\x7b\"state\":\x7b\"chat\":\x7b\"answer\":\"\"\x7d\x7d\x7d"]⟩
      (JsVal.obj [("state", JsVal.obj [("chat", JsVal.obj [("answer", JsVal.str "")])])])
      rfl rfl rfl rfl
  · exact c10_amended_truthiness_fallback.2
      ⟨200, ["\x7b\"choices\":[\x7b\"message\":\x7b\"content\":\"\"\x7d\x7d]\x7d"]⟩
      (JsVal.obj [("choices",
        JsVal.arr [JsVal.obj [("message", JsVal.obj [("content", JsVal.str "")])]])])
      rfl rfl rfl

/-- C5: feeding the streaming chat processor the successful stream
`data: {"choices":[{"delta":{"content":"a"}}]}` then `data: [DONE]` yields
the client trace `head 200, write "a", close`: exactly the text `a`, no
write after the DONE sentinel, and exactly one termination (the
second source-level `res.end()` in the `finally` block is a no-op on the already-ended
response). -/
theorem c5_chat_stream_roundtrip :
    processChatStream ⟨200,
      ["data: \x7b\"choices\":[\x7b\"delta\":\x7b\"content\":\"a\"\x7d\x7d]\x7d\n",
       "data: [DONE]\n"]⟩
      = ⟨[REvent.head 200, REvent.write "a", REvent.close], true, true⟩
    ∧ clientBody (processChatStream ⟨200,
        ["data: \x7b\"choices\":[\x7b\"delta\":\x7b\"content\":\"a\"\x7d\x7d]\x7d\n",
         "data: [DONE]\n"]⟩) = "a" := by
  refine ⟨by decide, rfl⟩

/-- If the conversation key is already in the initialized set, the gate
skips the init call and forwards directly, leaving the set unchanged. -/
theorem gate_hasKey (uuid : String) (set : List String) (req : CaRagReq)
    (h : set.contains (convInitKey uuid req.convHeader) = true) :
    doCaRagWithInit uuid set req = ⟨set, false, true, processCaRag req.callRes⟩ := by
  have hmem : convInitKey uuid req.convHeader ∈ set := by simpa using h
  simp [doCaRagWithInit, hmem]

/-- A fresh key whose init call succeeds is recorded and the request is
forwarded. -/
theorem gate_fresh_ok (uuid : String) (set : List String) (req : CaRagReq)
    (h1 : set.contains (convInitKey uuid req.convHeader) = false)
    (h2 : req.initRes.ok = true) :
    doCaRagWithInit uuid set req
      = ⟨convInitKey uuid req.convHeader :: set, true, true, processCaRag req.callRes⟩ := by
  have hmem : convInitKey uuid req.convHeader ∉ set := by simpa using h1
  simp [doCaRagWithInit, hmem, h2]

/-- Once the key is in the set, a whole request sequence with that key
issues no init call and forwards every request. -/
theorem runCaRagSeq_initialized (uuid : String) (k : String) :
    ∀ (reqs : List CaRagReq) (set : List String),
      (∀ r ∈ reqs, convInitKey uuid r.convHeader = k) →
      set.contains k = true →
      List.countP (fun g => g.initIssued) (runCaRagSeq uuid set reqs) = 0
      ∧ ∀ g ∈ runCaRagSeq uuid set reqs, g.forwarded = true := by
  intro reqs
  induction reqs with
  | nil =>
    intro set _ _
    exact ⟨rfl, by intro g hg; cases hg⟩
  | cons r rs ih =>
    intro set hall hin
    have hk : convInitKey uuid r.convHeader = k := hall r (by simp)
    have hc : set.contains (convInitKey uuid r.convHeader) = true := by
      rw [hk]; exact hin
    have hrest := ih set (fun x hx => hall x (by simp [hx])) hin
    simp only [runCaRagSeq]
    rw [gate_hasKey uuid set r hc]
    refine ⟨?_, ?_⟩
    · simp [List.countP_cons, hrest.1]
    · intro g hgmem
      rcases List.mem_cons.mp hgmem with hg | hg
      · rw [hg]
      · exact hrest.2 g hg

/-- C3: for a sequence of stateful-workflow requests sharing one
conversation init key, processed sequentially with every issued init call
succeeding, the init call is issued at most once and every request is
forwarded; once the key is recorded, later requests skip the init call. -/
theorem c3_init_at_most_once (uuid : String) (set : List String)
    (reqs : List CaRagReq) (k : String)
    (hall : ∀ r ∈ reqs, convInitKey uuid r.convHeader = k)
    (hok : ∀ r ∈ reqs, r.initRes.ok = true) :
    List.countP (fun g => g.initIssued) (runCaRagSeq uuid set reqs) ≤ 1
    ∧ ∀ g ∈ runCaRagSeq uuid set reqs, g.forwarded = true := by
  cases reqs with
  | nil =>
    exact ⟨by simp [runCaRagSeq], by intro g hg; cases hg⟩
  | cons r rs =>
    cases hb : set.contains k with
    | true =>
      have h := runCaRagSeq_initialized uuid k (r :: rs) set hall hb
      exact ⟨by rw [h.1]; exact Nat.zero_le 1, h.2⟩
    | false =>
      have hk : convInitKey uuid r.convHeader = k := hall r (by simp)
      have hco : set.contains (convInitKey uuid r.convHeader) = false := by
        rw [hk]; exact hb
      have hgo := gate_fresh_ok uuid set r hco (hok r (by simp))
      have hinrest : (convInitKey uuid r.convHeader :: set).contains k = true := by
        rw [hk]; simp
      have hrest := runCaRagSeq_initialized uuid k rs
        (convInitKey uuid r.convHeader :: set) (fun x hx => hall x (by simp [hx])) hinrest
      simp only [runCaRagSeq]
      rw [hgo]
      refine ⟨?_, ?_⟩
      · simp [List.countP_cons, hrest.1]
      · intro g hgmem
        rcases List.mem_cons.mp hgmem with hg | hg
        · rw [hg]
        · exact hrest.2 g hg

/-- Witness for C3: two same-key requests with succeeding init calls issue
exactly one init and both forward. -/
theorem c3_init_at_most_once_witness :
    List.countP (fun g => g.initIssued)
      (runCaRagSeq "123456" []
        [⟨"c1", ⟨200, ["ok"]⟩, ⟨200, ["r"]⟩⟩, ⟨"c1", ⟨200, ["ok"]⟩, ⟨200, ["r"]⟩⟩]) ≤ 1
    ∧ ∀ g ∈ runCaRagSeq "123456" []
        [⟨"c1", ⟨200, ["ok"]⟩, ⟨200, ["r"]⟩⟩, ⟨"c1", ⟨200, ["ok"]⟩, ⟨200, ["r"]⟩⟩],
        g.forwarded = true :=
  c3_init_at_most_once "123456" []
    [⟨"c1", ⟨200, ["ok"]⟩, ⟨200, ["r"]⟩⟩, ⟨"c1", ⟨200, ["ok"]⟩, ⟨200, ["r"]⟩⟩]
    "123456-c1" (by decide) (by decide)

/-- Splitting `cs ++ ['\n']` on newlines, when `cs` itself has none,
yields the accumulated prefix and an empty trailing piece. -/
theorem splitChAux_nl : ∀ (cs : List Char) (acc : List Char), '\n' ∉ cs →
    splitChAux '\n' (cs ++ ['\n']) acc = [String.mk (acc.reverse ++ cs), ""] := by
  intro cs
  induction cs with
  | nil =>
    intro acc _
    simp [splitChAux]
  | cons c cs ih =>
    intro acc h
    have hc : c ≠ '\n' := fun he => h (he ▸ List.mem_cons_self c cs)
    simp only [List.cons_append, splitChAux]
    rw [if_neg hc]
    erw [ih (c :: acc) (fun hm => h (List.mem_cons_of_mem _ hm))]
    simp

/-- A newline-free line followed by `"\n"` splits into the line and an
empty trailing buffer (the `lines.pop()` step of the loop). -/
theorem jsSplitCh_line (l : String) (h : '\n' ∉ l.data) :
    jsSplitCh (l ++ "\n") '\n' = [l, ""] := by
  unfold jsSplitCh
  have hd : (l ++ "\n").data = l.data ++ ['\n'] := String.data_append l "\n"
  rw [hd, splitChAux_nl l.data [] h]
  simp

/-- One pass of the shared stream loop over a single newline-terminated,
newline-free chunk whose per-line body does not early-return. -/
theorem streamLoop_cons_line (perLines : List String → Res → Res × Bool)
    (l : String) (cs : List String) (r r2 : Res) (hnl : '\n' ∉ l.data)
    (hpr : perLines [l] r = (r2, false)) :
    streamLoop perLines ((l ++ "\n") :: cs) "" r = streamLoop perLines cs "" r2 := by
  simp only [streamLoop]
  rw [show ("" ++ (l ++ "\n")) = l ++ "\n" from rfl, jsSplitCh_line l hnl]
  rw [show ([l, ""] : List String).dropLast = [l] from rfl]
  rw [show (([l, ""] : List String).getLast?).getD "" = "" from rfl]
  rw [hpr]
  simp

/-- The generate-stream loop body on a single qualifying line writes
exactly what `genLineForwarded` dictates and does not early-return. -/
theorem genPerLines_single (l : String) (r : Res)
    (hst : strStarts l "data: " = true)
    (h1 : dataLinePayload l ≠ "[DONE]") (h2 : dataLinePayload l ≠ "DONE") :
    genPerLines [l] r
      = ((match genLineForwarded l with
          | some d => resWrite r d
          | none => r), false) := by
  simp only [genPerLines, hst, if_true]
  rw [if_neg (fun hor => hor.elim h1 h2)]
  simp only [genLineForwarded]
  cases hp : jsonParse (dataLinePayload l) with
  | none => simp [hp, genPerLines]
  | some parsed =>
    cases hv : jsTruthy (jsGet parsed "value") && jsIsStr (jsGet parsed "value") with
    | true => simp [hp, hv, genPerLines]
    | false => simp [hp, hv, genPerLines]

/-- Unrolling the full generate-stream loop over newline-terminated
chunks, one qualifying line per chunk: the trace gains exactly the
`genLineForwarded` writes and a final close. -/
theorem genLoop_writes : ∀ (lines : List String) (r : Res),
    (∀ l ∈ lines, strStarts l "data: " = true ∧ dataLinePayload l ≠ "[DONE]"
      ∧ dataLinePayload l ≠ "DONE" ∧ '\n' ∉ l.data) →
    r.ended = false →
    streamLoop genPerLines (lines.map (fun l => l ++ "\n")) "" r
      = ⟨r.events ++ (lines.filterMap genLineForwarded).map REvent.write
          ++ [REvent.close], r.headersSent, true⟩ := by
  intro lines
  induction lines with
  | nil =>
    intro r _ hend
    show resEndNone (remainingBuf "" r) = _
    have h0 : remainingBuf "" r = r := rfl
    rw [h0]
    simp [resEndNone, hend]
  | cons l ls ih =>
    intro r hall hend
    obtain ⟨hst, h1, h2, hnl⟩ := hall l (by simp)
    rw [List.map_cons,
      streamLoop_cons_line genPerLines l (ls.map (fun l => l ++ "\n")) r _ hnl
        (genPerLines_single l r hst h1 h2)]
    cases hf : genLineForwarded l with
    | none =>
      simp only [hf]
      rw [ih r (fun x hx => hall x (by simp [hx])) hend]
      simp [List.filterMap_cons, hf]
    | some d =>
      simp only [hf]
      have hw : resWrite r d = ⟨r.events ++ [REvent.write d], r.headersSent, false⟩ := by
        simp [resWrite, hend]
      rw [hw, ih ⟨r.events ++ [REvent.write d], r.headersSent, false⟩
        (fun x hx => hall x (by simp [hx])) rfl]
      simp [List.filterMap_cons, hf]

/-- A trace of the shape `head, writes, close` delivers exactly its write
list. -/
theorem writes_of_trace (L : List String) (hs e : Bool) :
    writesOf ⟨REvent.head 200 :: (L.map REvent.write ++ [REvent.close]), hs, e⟩ = L := by
  induction L with
  | nil => rfl
  | cons a as ih =>
    simp only [writesOf, List.map_cons, List.cons_append, List.filterMap_cons] at ih ⊢
    exact congrArg (a :: ·) ih

/-- C6 counterexample: the claim says the whole original `data: ` line is
written, and that string-typed `value` fields are forwarded.  The
processor actually writes only `line.slice(6).trim()` (the payload without
the `data: ` prefix), and it drops a line whose `value` is the empty
string even though that value is string-typed. -/
theorem c6_forward_line_counterexample :
    writesOf (processGenerateStream ⟨200, ["data: \x7b\"value\":\"v\"\x7d\n"]⟩)
      = ["\x7b\"value\":\"v\"\x7d"]
    ∧ "\x7b\"value\":\"v\"\x7d" ≠ "data: \x7b\"value\":\"v\"\x7d"
    ∧ writesOf (processGenerateStream ⟨200, ["data: \x7b\"value\":\"\"\x7d\n"]⟩) = []
    ∧ jsIsStr (jsGet (JsVal.obj [("value", JsVal.str "")]) "value") = true
    ∧ jsonParse "\x7b\"value\":\"\"\x7d" = some (JsVal.obj [("value", JsVal.str "")]) :=
  ⟨by decide, by decide, by decide, rfl, rfl⟩

/-- C6 (amended): over a successful stream of complete `data: ` lines
(none being a DONE sentinel), the processor writes exactly the trimmed
payloads of those lines whose parsed JSON carries a truthy (non-empty)
string `value`; lines whose JSON lacks such a `value` and unparseable
lines produce no writes.  What is written is the payload after the
`data: ` prefix, not the whole original line. -/
theorem c6_amended_value_filter (lines : List String)
    (hall : ∀ l ∈ lines, strStarts l "data: " = true ∧ dataLinePayload l ≠ "[DONE]"
      ∧ dataLinePayload l ≠ "DONE" ∧ '\n' ∉ l.data) :
    writesOf (processGenerateStream ⟨200, lines.map (fun l => l ++ "\n")⟩)
      = lines.filterMap genLineForwarded := by
  have hok : BackendRes.ok ⟨200, lines.map (fun l => l ++ "\n")⟩ = true := rfl
  simp only [processGenerateStream, hok]
  rw [if_neg (by simp)]
  rw [show resHead res0 200 = ⟨[REvent.head 200], true, false⟩ from rfl]
  rw [genLoop_writes lines ⟨[REvent.head 200], true, false⟩ hall rfl]
  exact writes_of_trace _ _ _

/-- Witness for the amended C6 on two concrete lines: the non-empty
string-valued line forwards its payload, the empty one is dropped. -/
theorem c6_amended_value_filter_witness :
    writesOf (processGenerateStream ⟨200,
      ["data: \x7b\"value\":\"v\"\x7d", "data: \x7b\"value\":\"\"\x7d"].map
        (fun l => l ++ "\n")⟩)
      = ["\x7b\"value\":\"v\"\x7d"] := by
  rw [c6_amended_value_filter
    ["data: \x7b\"value\":\"v\"\x7d", "data: \x7b\"value\":\"\"\x7d"] (by decide)]
  decide
